import Mathlib

/-!
Shallow embedding of `pkg/controller/s3/bucket/loggingConfig.go` from
provider-aws: the logging-configuration and server-side-encryption (SSE)
facet controllers for an S3 bucket.

Modelling conventions:
* Go pointers become `Option`; a Go slice whose nil-vs-empty distinction is
  observable (go-cmp treats a nil slice and an empty slice as unequal, and the
  source branches on `!= nil`) becomes `Option (List _)`.
* The remote `Send(ctx)` call is modelled by passing its result in as an
  argument of type `Except S3Error _`; the result of a remote put/delete is
  passed in as `Option S3Error`.
* Code that can dereference a nil pointer (a panic in Go) returns `Option _`,
  with `none` as the panic case.
* In-place mutation of the `*v1beta1.Bucket` argument is modelled by returning
  the updated bucket.
* The Go field `Type` is rendered as `GranteeType` (`Type` is a Lean keyword).
-/

/-- Outcome of `Observe` (the package's `ResourceStatus`). -/
inductive ResourceStatus
  | Updated
  | NeedsUpdate
  | NeedsDeletion
  deriving DecidableEq, Repr

/-- Modelled from the spec: the error of a remote Get/Put/Delete call. The spec
requires a distinguishable "not configured" condition; the source recognizes it
via `s3.SSEConfigurationNotFound`, which lives outside the shown slice, so the
condition is one constructor here. -/
inductive S3Error
  | sseConfigurationNotFound
  | generic (msg : String)
  deriving DecidableEq, Repr

/-- Modelled from the spec: `s3.SSEConfigurationNotFound` (pkg/clients/s3, not
in the shown slice) recognizes the "server side encryption configuration not
found" error. -/
def SSEConfigurationNotFound : S3Error → Bool
  | .sseConfigurationNotFound => true
  | .generic _ => false

/-- An error wrapped with an operation-specific message (`awsclient.Wrap`). -/
structure WrappedError where
  tag : String
  cause : S3Error
  deriving DecidableEq, Repr

/-- Modelled from the spec: `awsclient.Wrap` (pkg/clients, not in the shown
slice) tags a non-nil error with a message and passes a nil error through. -/
def Wrap : Option S3Error → String → Option WrappedError
  | none, _ => none
  | some e, tag => some ⟨tag, e⟩

/-- `resource.Ignore` from crossplane-runtime: drop the error when the
predicate recognizes it, keep it otherwise. -/
def Ignore (p : S3Error → Bool) (e : S3Error) : Option S3Error :=
  if p e then none else some e

/-- Modelled from the spec: `awsclient.StringValue` dereferences an optional
string, yielding "" when absent. -/
def StringValue : Option String → String
  | none => ""
  | some s => s

/-- Modelled from the spec: `awsclient.LateInitializeStringPtr` keeps a value
the user already set (non-nil) and otherwise takes the observed one. -/
def LateInitializeStringPtr : Option String → Option String → Option String
  | some s, _ => some s
  | none, f => f

/-- Modelled from the spec: `awsclient.LateInitializeString` keeps a non-empty
user value and otherwise takes the observed optional string. -/
def LateInitializeString (i : String) (f : Option String) : String :=
  if i ≠ "" then i else StringValue f

/-- `v1beta1.TargetGrantee`. -/
structure TargetGrantee where
  DisplayName : Option String
  EmailAddress : Option String
  ID : Option String
  GranteeType : String
  URI : Option String
  deriving DecidableEq, Repr

/-- `v1beta1.TargetGrant`: the grantee is a value field, never nil. -/
structure TargetGrant where
  Grantee : TargetGrantee
  Permission : String
  deriving DecidableEq, Repr

/-- `v1beta1.LoggingConfiguration`. `TargetBucket` is `*string`,
`TargetPrefix` a plain string; the `TargetGrants` slice distinguishes nil from
empty (`GenerateAWSLogging` branches on `!= nil`). -/
structure LoggingConfiguration where
  TargetBucket : Option String
  TargetPrefix : String
  TargetGrants : Option (List TargetGrant)
  deriving DecidableEq, Repr

/-- `v1beta1.ServerSideEncryptionByDefault`. -/
structure ServerSideEncryptionByDefault where
  KMSMasterKeyID : Option String
  SSEAlgorithm : String
  deriving DecidableEq, Repr

/-- `v1beta1.ServerSideEncryptionRule`: the by-default block is a value field
(the source constructs it as a struct literal, not through a pointer). -/
structure ServerSideEncryptionRule where
  ApplyServerSideEncryptionByDefault : ServerSideEncryptionByDefault
  deriving DecidableEq, Repr

/-- `v1beta1.ServerSideEncryptionConfiguration`. -/
structure ServerSideEncryptionConfiguration where
  Rules : List ServerSideEncryptionRule
  deriving DecidableEq, Repr

/-- The slice of `v1beta1.BucketParameters` these two facets touch. -/
structure BucketParameters where
  LoggingConfiguration : Option LoggingConfiguration
  ServerSideEncryptionConfiguration : Option ServerSideEncryptionConfiguration
  deriving DecidableEq, Repr

/-- The slice of `v1beta1.BucketSpec` these two facets touch. -/
structure BucketSpec where
  ForProvider : BucketParameters
  deriving DecidableEq, Repr

/-- A bucket: its external name (`meta.GetExternalName`) and spec. -/
structure Bucket where
  ExternalName : String
  Spec : BucketSpec
  deriving DecidableEq, Repr

/-- Replace the bucket's logging configuration (models the in-place write). -/
def Bucket.setLogging (b : Bucket) (c : Option LoggingConfiguration) : Bucket :=
  { b with Spec := { b.Spec with ForProvider :=
      { b.Spec.ForProvider with LoggingConfiguration := c } } }

/-- Replace the bucket's SSE configuration (models the in-place write). -/
def Bucket.setSSE (b : Bucket) (c : Option ServerSideEncryptionConfiguration) : Bucket :=
  { b with Spec := { b.Spec with ForProvider :=
      { b.Spec.ForProvider with ServerSideEncryptionConfiguration := c } } }

/-- `awss3.Grantee` (remote shape). -/
structure AwsGrantee where
  DisplayName : Option String
  EmailAddress : Option String
  ID : Option String
  GranteeType : String
  URI : Option String
  deriving DecidableEq, Repr

/-- `awss3.TargetGrant`: the grantee is a pointer (`*awss3.Grantee`). -/
structure AwsTargetGrant where
  Grantee : Option AwsGrantee
  Permission : String
  deriving DecidableEq, Repr

/-- `awss3.LoggingEnabled`. `TargetGrants` keeps the nil-vs-empty slice
distinction because go-cmp compares the two as unequal. -/
structure LoggingEnabled where
  TargetBucket : Option String
  TargetGrants : Option (List AwsTargetGrant)
  TargetPrefix : Option String
  deriving DecidableEq, Repr

/-- `awss3.GetBucketLoggingOutput` (the part the source reads). -/
structure GetBucketLoggingOutput where
  LoggingEnabled : Option LoggingEnabled
  deriving DecidableEq, Repr

/-- `awss3.BucketLoggingStatus`. -/
structure BucketLoggingStatus where
  LoggingEnabled : Option LoggingEnabled
  deriving DecidableEq, Repr

/-- `awss3.PutBucketLoggingInput`. -/
structure PutBucketLoggingInput where
  Bucket : Option String
  BucketLoggingStatus : Option BucketLoggingStatus
  deriving DecidableEq, Repr

/-- The constant `loggingGetFailed`. -/
def loggingGetFailed : String := "cannot get Bucket logging configuration"

/-- The constant `loggingPutFailed`. -/
def loggingPutFailed : String := "cannot put Bucket logging configuration"

/-- `GenerateAWSLogging`: renders the local logging configuration in remote
shape. A nil configuration maps to nil; a nil `TargetGrants` slice stays nil
(the `output.TargetGrants` zero value), an existing slice is mapped
element-wise in order. -/
def GenerateAWSLogging : Option LoggingConfiguration → Option LoggingEnabled
  | none => none
  | some l =>
      some
        { TargetBucket := l.TargetBucket
          TargetPrefix := some l.TargetPrefix
          TargetGrants := l.TargetGrants.map (List.map fun g =>
            { Grantee := some
                { DisplayName := g.Grantee.DisplayName
                  EmailAddress := g.Grantee.EmailAddress
                  ID := g.Grantee.ID
                  GranteeType := g.Grantee.GranteeType
                  URI := g.Grantee.URI }
              Permission := g.Permission }) }

/-- `GeneratePutBucketLoggingInput`: builds the put request. `TargetGrants`
starts as `make([]awss3.TargetGrant, 0)` — a non-nil empty slice — and each
desired grant is appended in order (ranging over a nil slice appends
nothing). -/
def GeneratePutBucketLoggingInput (name : String) (config : LoggingConfiguration) :
    PutBucketLoggingInput :=
  { Bucket := some name
    BucketLoggingStatus := some
      { LoggingEnabled := some
          { TargetBucket := config.TargetBucket
            TargetGrants := some ((config.TargetGrants.getD []).map fun grant =>
              { Grantee := some
                  { DisplayName := grant.Grantee.DisplayName
                    EmailAddress := grant.Grantee.EmailAddress
                    ID := grant.Grantee.ID
                    GranteeType := grant.Grantee.GranteeType
                    URI := grant.Grantee.URI }
                Permission := grant.Permission })
            TargetPrefix := some config.TargetPrefix } } }

/-- The `LoggingEnabled` value a `PutBucketLoggingInput` carries. -/
def putLoggingEnabled (i : PutBucketLoggingInput) : Option LoggingEnabled :=
  i.BucketLoggingStatus.bind fun s => s.LoggingEnabled

/-- `LoggingConfigurationClient.Observe`: read the remote logging state and
compare it with the remote-shape rendering of the desired state. The source's
`cmpopts.IgnoreTypes(&xpv1.Reference{}, &xpv1.Selector{})` is a no-op here:
the compared `awss3.LoggingEnabled` shapes contain no such fields, so
`cmp.Equal` is plain structural equality, with nil and empty slices unequal.
The returned bucket models the (unchanged) `*v1beta1.Bucket` argument. -/
def LoggingConfigurationClient.Observe (bucket : Bucket)
    (send : Except S3Error GetBucketLoggingOutput) :
    Bucket × ResourceStatus × Option WrappedError :=
  match send with
  | .error e => (bucket, .NeedsUpdate, Wrap (some e) loggingGetFailed)
  | .ok external =>
      if GenerateAWSLogging bucket.Spec.ForProvider.LoggingConfiguration ≠
          external.LoggingEnabled then
        (bucket, .NeedsUpdate, none)
      else
        (bucket, .Updated, none)

/-- The copy loop of the logging `LateInitialize`: every remote grant is
expanded field by field, in order, dereferencing its `Grantee` pointer
(`none` models that nil-pointer panic). -/
def collectLocalGrants : List AwsTargetGrant → Option (List TargetGrant)
  | [] => some []
  | v :: rest =>
      match v.Grantee with
      | none => none
      | some g =>
          (collectLocalGrants rest).map fun ws =>
            ({ Grantee :=
                { DisplayName := g.DisplayName,
                  EmailAddress := g.EmailAddress,
                  ID := g.ID,
                  GranteeType := g.GranteeType,
                  URI := g.URI },
               Permission := v.Permission } : TargetGrant) :: ws

/-- `LoggingConfigurationClient.LateInitialize`: backfill unset desired fields
from the remote state. `none` is the Go panic of dereferencing a nil
`v.Grantee` while copying the remote grant list. -/
def LoggingConfigurationClient.LateInitialize (bucket : Bucket)
    (send : Except S3Error GetBucketLoggingOutput) :
    Option (Bucket × Option WrappedError) :=
  match send with
  | .error e => some (bucket, Wrap (some e) loggingGetFailed)
  | .ok external =>
      match external.LoggingEnabled with
      | none => some (bucket, none)
      | some le =>
          let config := (bucket.Spec.ForProvider.LoggingConfiguration).getD
            { TargetBucket := none, TargetPrefix := "", TargetGrants := none }
          let config1 : LoggingConfiguration :=
            { config with
              TargetBucket := LateInitializeStringPtr config.TargetBucket le.TargetBucket
              TargetPrefix := LateInitializeString config.TargetPrefix le.TargetPrefix }
          match le.TargetGrants with
          | some gs =>
              if (config1.TargetGrants.getD []).length = 0 then
                match collectLocalGrants gs with
                | none => none
                | some grants =>
                    some (bucket.setLogging (some { config1 with TargetGrants := some grants }),
                      none)
              else some (bucket.setLogging (some config1), none)
          | none => some (bucket.setLogging (some config1), none)

/-- `LoggingConfigurationClient.CreateOrUpdate`: nil desired state returns
immediately; otherwise the put request is issued. The first component is the
request sent to the remote API (`none` = no remote write); `putResult` is the
error outcome of that remote call. -/
def LoggingConfigurationClient.CreateOrUpdate (bucket : Bucket)
    (putResult : Option S3Error) :
    Option PutBucketLoggingInput × Option WrappedError :=
  match bucket.Spec.ForProvider.LoggingConfiguration with
  | none => (none, none)
  | some config =>
      (some (GeneratePutBucketLoggingInput bucket.ExternalName config),
        Wrap putResult loggingPutFailed)

/-- `LoggingConfigurationClient.Delete` does nothing. -/
def LoggingConfigurationClient.Delete (_ : Bucket) : Option WrappedError :=
  none

/-- `awss3.ServerSideEncryptionByDefault` (remote shape). -/
structure AwsServerSideEncryptionByDefault where
  KMSMasterKeyID : Option String
  SSEAlgorithm : String
  deriving DecidableEq, Repr

/-- `awss3.ServerSideEncryptionRule`: the by-default block is a pointer
(`*awss3.ServerSideEncryptionByDefault`), so it may be nil. -/
structure AwsServerSideEncryptionRule where
  ApplyServerSideEncryptionByDefault : Option AwsServerSideEncryptionByDefault
  deriving DecidableEq, Repr

/-- `awss3.ServerSideEncryptionConfiguration` (remote shape). -/
structure AwsServerSideEncryptionConfiguration where
  Rules : List AwsServerSideEncryptionRule
  deriving DecidableEq, Repr

/-- `awss3.GetBucketEncryptionOutput` (the part the source reads). -/
structure GetBucketEncryptionOutput where
  ServerSideEncryptionConfiguration : Option AwsServerSideEncryptionConfiguration
  deriving DecidableEq, Repr

/-- `awss3.GetBucketEncryptionResponse`: embeds `*GetBucketEncryptionOutput`,
which the source checks against nil in `LateInitialize` and dereferences
through field promotion in `Observe`. -/
structure GetBucketEncryptionResponse where
  GetBucketEncryptionOutput : Option GetBucketEncryptionOutput
  deriving DecidableEq, Repr

/-- `awss3.PutBucketEncryptionInput`. -/
structure PutBucketEncryptionInput where
  Bucket : Option String
  ServerSideEncryptionConfiguration : Option AwsServerSideEncryptionConfiguration
  deriving DecidableEq, Repr

/-- The constant `sseGetFailed`. -/
def sseGetFailed : String := "cannot get Bucket encryption configuration"

/-- The constant `ssePutFailed`. -/
def ssePutFailed : String := "cannot put Bucket encryption configuration"

/-- The constant `sseDeleteFailed`. -/
def sseDeleteFailed : String := "cannot delete Bucket encryption configuration"

/-- `GeneratePutBucketEncryptionInput`: builds the put request, mapping each
desired rule in order into the remote shape (the by-default block becomes a
fresh non-nil pointer). -/
def GeneratePutBucketEncryptionInput (name : String)
    (config : ServerSideEncryptionConfiguration) : PutBucketEncryptionInput :=
  { Bucket := some name,
    ServerSideEncryptionConfiguration := some
      { Rules := config.Rules.map fun rule =>
          { ApplyServerSideEncryptionByDefault := some
              { KMSMasterKeyID := rule.ApplyServerSideEncryptionByDefault.KMSMasterKeyID,
                SSEAlgorithm := rule.ApplyServerSideEncryptionByDefault.SSEAlgorithm } } } }

/-- The loop of `GenerateLocalBucketEncryption`: each remote rule's
`ApplyServerSideEncryptionByDefault` pointer is dereferenced without a guard
(`none` models that nil-pointer panic), in order. -/
def collectLocalRules : List AwsServerSideEncryptionRule →
    Option (List ServerSideEncryptionRule)
  | [] => some []
  | rule :: rest =>
      match rule.ApplyServerSideEncryptionByDefault with
      | none => none
      | some d =>
          (collectLocalRules rest).map fun rs =>
            ({ ApplyServerSideEncryptionByDefault :=
                { KMSMasterKeyID := d.KMSMasterKeyID,
                  SSEAlgorithm := d.SSEAlgorithm } } : ServerSideEncryptionRule) :: rs

/-- `GenerateLocalBucketEncryption`: maps the remote rules back into local
shape, in order; `none` models the nil-pointer panic inside the loop. -/
def GenerateLocalBucketEncryption (config : AwsServerSideEncryptionConfiguration) :
    Option (List ServerSideEncryptionRule) :=
  collectLocalRules config.Rules

/-- `SSEConfigurationClient.LateInitialize`: on the recognized not-found error
it is a no-op; otherwise, when the remote configuration is present, it assigns
`Rules` from the remote value (unconditionally — see the theorems below).
`none` models the panic inside `GenerateLocalBucketEncryption`. -/
def SSEConfigurationClient.LateInitialize (bucket : Bucket)
    (send : Except S3Error GetBucketEncryptionResponse) :
    Option (Bucket × Option WrappedError) :=
  match send with
  | .error e =>
      if SSEConfigurationNotFound e then some (bucket, none)
      else some (bucket, Wrap (some e) sseGetFailed)
  | .ok external =>
      match external.GetBucketEncryptionOutput with
      | none => some (bucket, none)
      | some out =>
          match out.ServerSideEncryptionConfiguration with
          | none => some (bucket, none)
          | some sse =>
              let config := (bucket.Spec.ForProvider.ServerSideEncryptionConfiguration).getD
                { Rules := [] }
              match GenerateLocalBucketEncryption sse with
              | none => none
              | some rules =>
                  some (bucket.setSSE (some { config with Rules := rules }), none)

/-- The element-wise loop of the SSE `Observe`: walk the desired rules,
dereferencing the remote rule at the same index. `some true` = a mismatch was
found (early `NeedsUpdate` return), `some false` = the loop finished, `none` =
a nil remote `ApplyServerSideEncryptionByDefault` pointer was dereferenced (or
the remote list ran out, an index panic unreachable under the length guard). -/
def sseCompareRules :
    List AwsServerSideEncryptionRule → List ServerSideEncryptionRule → Option Bool
  | _, [] => some false
  | [], _ :: _ => none
  | o :: os, r :: rs =>
      match o.ApplyServerSideEncryptionByDefault with
      | none => none
      | some outputRule =>
          if StringValue outputRule.KMSMasterKeyID ≠
              StringValue r.ApplyServerSideEncryptionByDefault.KMSMasterKeyID then
            some true
          else if outputRule.SSEAlgorithm ≠
              r.ApplyServerSideEncryptionByDefault.SSEAlgorithm then
            some true
          else sseCompareRules os rs

/-- `SSEConfigurationClient.Observe`: read the remote SSE state, branch on
presence of each side, compare rule counts, then compare rules element-wise.
`none` models the two Go panics: field promotion through a nil embedded
`GetBucketEncryptionOutput`, and the nil rule pointer inside the loop. The
returned bucket models the (unchanged) `*v1beta1.Bucket` argument. -/
def SSEConfigurationClient.Observe (bucket : Bucket)
    (send : Except S3Error GetBucketEncryptionResponse) :
    Option (Bucket × ResourceStatus × Option WrappedError) :=
  let config := bucket.Spec.ForProvider.ServerSideEncryptionConfiguration
  match send with
  | .error e =>
      if SSEConfigurationNotFound e && config.isNone then
        some (bucket, .Updated, none)
      else
        some (bucket, .NeedsUpdate, Wrap (Ignore SSEConfigurationNotFound e) sseGetFailed)
  | .ok external =>
      match external.GetBucketEncryptionOutput with
      | none => none
      | some out =>
          match out.ServerSideEncryptionConfiguration, config with
          | some _, none => some (bucket, .NeedsDeletion, none)
          | none, none => some (bucket, .Updated, none)
          | none, some _ => some (bucket, .NeedsUpdate, none)
          | some ext, some cfg =>
              if ext.Rules.length ≠ cfg.Rules.length then
                some (bucket, .NeedsUpdate, none)
              else
                match sseCompareRules ext.Rules cfg.Rules with
                | none => none
                | some true => some (bucket, .NeedsUpdate, none)
                | some false => some (bucket, .Updated, none)

/-- `SSEConfigurationClient.CreateOrUpdate`: nil desired state returns
immediately; otherwise the put request is issued. The first component is the
request sent to the remote API (`none` = no remote write); `putResult` is the
error outcome of that remote call. -/
def SSEConfigurationClient.CreateOrUpdate (bucket : Bucket)
    (putResult : Option S3Error) :
    Option PutBucketEncryptionInput × Option WrappedError :=
  match bucket.Spec.ForProvider.ServerSideEncryptionConfiguration with
  | none => (none, none)
  | some config =>
      (some (GeneratePutBucketEncryptionInput bucket.ExternalName config),
        Wrap putResult ssePutFailed)

/-- `SSEConfigurationClient.Delete`: issues one delete call and wraps its
error. -/
def SSEConfigurationClient.Delete (_ : Bucket) (deleteResult : Option S3Error) :
    Option WrappedError :=
  Wrap deleteResult sseDeleteFailed

/-! ## Concrete inputs used by evaluations, counterexamples and witnesses -/

/-- A bucket with neither facet's desired state set. -/
def emptyBucket : Bucket :=
  { ExternalName := "test-bucket",
    Spec := { ForProvider :=
      { LoggingConfiguration := none, ServerSideEncryptionConfiguration := none } } }

/-- A user-set SSE rule: AES256, no KMS key. -/
def aesRule : ServerSideEncryptionRule :=
  { ApplyServerSideEncryptionByDefault :=
      { KMSMasterKeyID := none, SSEAlgorithm := "AES256" } }

/-- A different SSE rule in local shape: aws:kms with a key. -/
def kmsRule : ServerSideEncryptionRule :=
  { ApplyServerSideEncryptionByDefault :=
      { KMSMasterKeyID := some "key-arn", SSEAlgorithm := "aws:kms" } }

/-- A bucket whose SSE desired state the user already set to `[aesRule]`. -/
def aesBucket : Bucket :=
  { ExternalName := "test-bucket",
    Spec := { ForProvider :=
      { LoggingConfiguration := none,
        ServerSideEncryptionConfiguration := some { Rules := [aesRule] } } } }

/-- A successful remote read reporting one aws:kms rule. -/
def kmsResponse : GetBucketEncryptionResponse :=
  { GetBucketEncryptionOutput := some
      { ServerSideEncryptionConfiguration := some
          { Rules :=
              [⟨some { KMSMasterKeyID := some "key-arn", SSEAlgorithm := "aws:kms" }⟩] } } }

/-- C1, failing input: the user set the SSE desired `Rules` to `[aesRule]` and
the remote reports a different rule; `SSEConfigurationClient.LateInitialize`
assigns `Rules` from the remote value unconditionally, so the user-set field
changes (the claim — and the spec's late-init invariant — say it must not). -/
theorem sseLateInitializeOverwritesSetRules :
    SSEConfigurationClient.LateInitialize aesBucket (Except.ok kmsResponse) =
      some (aesBucket.setSSE (some { Rules := [kmsRule] }), none) ∧
    (aesBucket.setSSE (some { Rules := [kmsRule] })).Spec.ForProvider.ServerSideEncryptionConfiguration ≠
      aesBucket.Spec.ForProvider.ServerSideEncryptionConfiguration := by
  constructor
  · rfl
  · decide

/-- A bucket whose SSE desired state is present (an empty rule list). -/
def emptyRulesBucket : Bucket :=
  { ExternalName := "test-bucket",
    Spec := { ForProvider :=
      { LoggingConfiguration := none,
        ServerSideEncryptionConfiguration := some { Rules := [] } } } }

/-- C2, counterexample: the SSE desired state is present and the remote read
fails with the recognized not-configured condition, yet `Observe` returns a
nil error — the condition is absorbed (`resource.Ignore`), not surfaced as the
claim states. -/
theorem sseObserveNotFoundAbsorbedCounterexample :
    SSEConfigurationClient.Observe emptyRulesBucket
        (Except.error S3Error.sseConfigurationNotFound) =
      some (emptyRulesBucket, ResourceStatus.NeedsUpdate, none) := by
  rfl

/-- C2, amended: with present SSE desired state, a read failure recognized as
not-configured is absorbed — `Observe` returns `NeedsUpdate` with a nil
error — while any other read failure is surfaced wrapped with `sseGetFailed`. -/
theorem sseObserveReadFailure (b : Bucket) (e : S3Error)
    (hc : b.Spec.ForProvider.ServerSideEncryptionConfiguration ≠ none) :
    (SSEConfigurationNotFound e = true →
        SSEConfigurationClient.Observe b (Except.error e) =
          some (b, ResourceStatus.NeedsUpdate, none)) ∧
    (SSEConfigurationNotFound e = false →
        SSEConfigurationClient.Observe b (Except.error e) =
          some (b, ResourceStatus.NeedsUpdate, some ⟨sseGetFailed, e⟩)) := by
  have hn : (b.Spec.ForProvider.ServerSideEncryptionConfiguration).isNone = false := by
    cases h : b.Spec.ForProvider.ServerSideEncryptionConfiguration with
    | none => exact absurd h hc
    | some _ => rfl
  constructor
  · intro he
    simp [SSEConfigurationClient.Observe, hn, he, Ignore, Wrap]
  · intro he
    simp [SSEConfigurationClient.Observe, hn, he, Ignore, Wrap]

/-- C2, witness for the amended theorem at a concrete input. -/
theorem sseObserveReadFailure_witness :
    emptyRulesBucket.Spec.ForProvider.ServerSideEncryptionConfiguration ≠ none ∧
    SSEConfigurationNotFound (S3Error.generic "boom") = false ∧
    SSEConfigurationClient.Observe emptyRulesBucket
        (Except.error (S3Error.generic "boom")) =
      some (emptyRulesBucket, ResourceStatus.NeedsUpdate,
        some ⟨sseGetFailed, S3Error.generic "boom"⟩) :=
  ⟨by decide, rfl,
    (sseObserveReadFailure emptyRulesBucket (S3Error.generic "boom") (by decide)).2 rfl⟩

/-- C3: absence symmetry. With absent SSE desired state, a read failure
recognized as not-configured makes `Observe` return `Updated` with a nil
error; and with absent desired state, `CreateOrUpdate` of either facet
returns a nil error and issues no remote write (the request component is
`none`). -/
theorem absenceSymmetry :
    (∀ (b : Bucket) (e : S3Error),
        b.Spec.ForProvider.ServerSideEncryptionConfiguration = none →
        SSEConfigurationNotFound e = true →
        SSEConfigurationClient.Observe b (Except.error e) =
          some (b, ResourceStatus.Updated, none)) ∧
    (∀ (b : Bucket) (putResult : Option S3Error),
        b.Spec.ForProvider.ServerSideEncryptionConfiguration = none →
        SSEConfigurationClient.CreateOrUpdate b putResult = (none, none)) ∧
    (∀ (b : Bucket) (putResult : Option S3Error),
        b.Spec.ForProvider.LoggingConfiguration = none →
        LoggingConfigurationClient.CreateOrUpdate b putResult = (none, none)) := by
  refine ⟨?_, ?_, ?_⟩
  · intro b e hc he
    simp [SSEConfigurationClient.Observe, hc, he]
  · intro b putResult hc
    simp [SSEConfigurationClient.CreateOrUpdate, hc]
  · intro b putResult hc
    simp [LoggingConfigurationClient.CreateOrUpdate, hc]

/-- C3, witness at a concrete input. -/
theorem absenceSymmetry_witness :
    SSEConfigurationClient.Observe emptyBucket
        (Except.error S3Error.sseConfigurationNotFound) =
      some (emptyBucket, ResourceStatus.Updated, none) ∧
    SSEConfigurationClient.CreateOrUpdate emptyBucket none = (none, none) ∧
    LoggingConfigurationClient.CreateOrUpdate emptyBucket none = (none, none) :=
  ⟨absenceSymmetry.1 emptyBucket S3Error.sseConfigurationNotFound rfl rfl,
    absenceSymmetry.2.1 emptyBucket none rfl,
    absenceSymmetry.2.2 emptyBucket none rfl⟩

/-- The remote-shape rendering of a present logging configuration has exactly
as many target grants as the desired state (nil maps to nil). -/
lemma generateAWSLogging_grantsLength (cfg : LoggingConfiguration) (le : LoggingEnabled)
    (h : GenerateAWSLogging (some cfg) = some le) :
    (le.TargetGrants.getD []).length = ((cfg.TargetGrants.getD []).length) := by
  cases hg : cfg.TargetGrants with
  | none => simp [GenerateAWSLogging, hg] at h; simp [← h, hg]
  | some gs => simp [GenerateAWSLogging, hg] at h; simp [← h, hg]

/-- C4: with both sides present, a grant/rule count mismatch alone makes
`Observe` return `NeedsUpdate` — the SSE facet compares `Rules` lengths before
any element, and the logging facet's structural comparison cannot equate grant
lists of different lengths. -/
theorem driftOnCountMismatch :
    (∀ (b : Bucket) (cfg : ServerSideEncryptionConfiguration)
        (resp : GetBucketEncryptionResponse) (out : GetBucketEncryptionOutput)
        (ext : AwsServerSideEncryptionConfiguration),
        b.Spec.ForProvider.ServerSideEncryptionConfiguration = some cfg →
        resp.GetBucketEncryptionOutput = some out →
        out.ServerSideEncryptionConfiguration = some ext →
        ext.Rules.length ≠ cfg.Rules.length →
        SSEConfigurationClient.Observe b (Except.ok resp) =
          some (b, ResourceStatus.NeedsUpdate, none)) ∧
    (∀ (b : Bucket) (cfg : LoggingConfiguration) (out : GetBucketLoggingOutput)
        (le : LoggingEnabled),
        b.Spec.ForProvider.LoggingConfiguration = some cfg →
        out.LoggingEnabled = some le →
        (le.TargetGrants.getD []).length ≠ ((cfg.TargetGrants.getD []).length) →
        LoggingConfigurationClient.Observe b (Except.ok out) =
          (b, ResourceStatus.NeedsUpdate, none)) := by
  constructor
  · intro b cfg resp out ext hb hr ho hlen
    simp [SSEConfigurationClient.Observe, hb, hr, ho, hlen]
  · intro b cfg out le hb ho hlen
    have hne : GenerateAWSLogging b.Spec.ForProvider.LoggingConfiguration ≠
        out.LoggingEnabled := by
      rw [hb, ho]
      intro h
      exact hlen (generateAWSLogging_grantsLength cfg le h)
    simp [LoggingConfigurationClient.Observe, hne]

/-- A remote logging state with one target grant. -/
def oneGrantLE : LoggingEnabled :=
  { TargetBucket := none,
    TargetGrants := some [{ Grantee := none, Permission := "FULL_CONTROL" }],
    TargetPrefix := none }

/-- A bucket whose logging desired state is present with nil grants. -/
def nilGrantsBucket : Bucket :=
  { ExternalName := "test-bucket",
    Spec := { ForProvider :=
      { LoggingConfiguration := some
          { TargetBucket := none, TargetPrefix := "", TargetGrants := none },
        ServerSideEncryptionConfiguration := none } } }

/-- C4, witness: one remote SSE rule against zero desired rules, and one
remote grant against nil desired grants. -/
theorem driftOnCountMismatch_witness :
    SSEConfigurationClient.Observe emptyRulesBucket (Except.ok kmsResponse) =
      some (emptyRulesBucket, ResourceStatus.NeedsUpdate, none) ∧
    LoggingConfigurationClient.Observe nilGrantsBucket
        (Except.ok { LoggingEnabled := some oneGrantLE }) =
      (nilGrantsBucket, ResourceStatus.NeedsUpdate, none) :=
  ⟨driftOnCountMismatch.1 emptyRulesBucket { Rules := [] } kmsResponse
      { ServerSideEncryptionConfiguration := some
          { Rules := [⟨some { KMSMasterKeyID := some "key-arn", SSEAlgorithm := "aws:kms" }⟩] } }
      { Rules := [⟨some { KMSMasterKeyID := some "key-arn", SSEAlgorithm := "aws:kms" }⟩] }
      rfl rfl rfl (by decide),
    driftOnCountMismatch.2 nilGrantsBucket
      { TargetBucket := none, TargetPrefix := "", TargetGrants := none }
      { LoggingEnabled := some oneGrantLE } oneGrantLE rfl rfl (by decide)⟩

/-- C5: only the delete-capable SSE facet reports `NeedsDeletion`, exactly
when the remote read succeeds with a present remote configuration while the
desired state is absent; the logging facet never reports `NeedsDeletion`, and
reports `NeedsUpdate` when the remote logging state is present while the
desired state is absent. -/
theorem needsDeletionOnlyDeleteCapable :
    (∀ (b : Bucket) (send : Except S3Error GetBucketEncryptionResponse),
        ((SSEConfigurationClient.Observe b send).map (fun r => r.2.1) =
            some ResourceStatus.NeedsDeletion) ↔
          (b.Spec.ForProvider.ServerSideEncryptionConfiguration = none ∧
            ∃ (resp : GetBucketEncryptionResponse) (out : GetBucketEncryptionOutput)
              (ext : AwsServerSideEncryptionConfiguration),
              send = Except.ok resp ∧
              resp.GetBucketEncryptionOutput = some out ∧
              out.ServerSideEncryptionConfiguration = some ext)) ∧
    (∀ (b : Bucket) (send : Except S3Error GetBucketLoggingOutput),
        (LoggingConfigurationClient.Observe b send).2.1 ≠ ResourceStatus.NeedsDeletion) ∧
    (∀ (b : Bucket) (out : GetBucketLoggingOutput) (le : LoggingEnabled),
        b.Spec.ForProvider.LoggingConfiguration = none →
        out.LoggingEnabled = some le →
        LoggingConfigurationClient.Observe b (Except.ok out) =
          (b, ResourceStatus.NeedsUpdate, none)) := by
  refine ⟨?_, ?_, ?_⟩
  · intro b send
    obtain ⟨nm, ⟨⟨lc, sc⟩⟩⟩ := b
    cases send with
    | error e =>
        constructor
        · intro h
          exfalso
          by_cases hcon : (SSEConfigurationNotFound e && sc.isNone) = true
          · simp [SSEConfigurationClient.Observe, hcon] at h
          · simp [SSEConfigurationClient.Observe, hcon] at h
        · rintro ⟨-, resp, out, ext, h, -⟩
          exact Except.noConfusion h
    | ok external =>
        obtain ⟨o⟩ := external
        cases o with
        | none =>
            constructor
            · intro h
              simp [SSEConfigurationClient.Observe] at h
            · rintro ⟨-, resp, out, ext, h, h2, -⟩
              cases h
              exact Option.noConfusion h2
        | some out =>
            obtain ⟨s⟩ := out
            cases s with
            | none =>
                cases sc with
                | none =>
                    constructor
                    · intro h
                      simp [SSEConfigurationClient.Observe] at h
                    · rintro ⟨-, resp, out, ext, h, h2, h3⟩
                      cases h
                      cases h2
                      exact Option.noConfusion h3
                | some cfg =>
                    constructor
                    · intro h
                      simp [SSEConfigurationClient.Observe] at h
                    · rintro ⟨h, -⟩
                      exact Option.noConfusion h
            | some ext =>
                cases sc with
                | none =>
                    constructor
                    · intro _
                      exact ⟨rfl, ⟨some ⟨some ext⟩⟩, ⟨some ext⟩, ext, rfl, rfl, rfl⟩
                    · intro _
                      rfl
                | some cfg =>
                    constructor
                    · intro h
                      exfalso
                      by_cases hlen : ext.Rules.length ≠ cfg.Rules.length
                      · simp [SSEConfigurationClient.Observe, hlen] at h
                      · simp only [SSEConfigurationClient.Observe] at h
                        rw [if_neg hlen] at h
                        cases hcmp : sseCompareRules ext.Rules cfg.Rules with
                        | none => rw [hcmp] at h; simp at h
                        | some drift =>
                            rw [hcmp] at h
                            cases drift <;> simp at h
                    · rintro ⟨h, -⟩
                      exact Option.noConfusion h
  · intro b send
    cases send with
    | error e => simp [LoggingConfigurationClient.Observe]
    | ok external =>
        by_cases h : GenerateAWSLogging b.Spec.ForProvider.LoggingConfiguration ≠
            external.LoggingEnabled
        · simp [LoggingConfigurationClient.Observe, h]
        · simp [LoggingConfigurationClient.Observe, h]
  · intro b out le hb ho
    have hne : GenerateAWSLogging b.Spec.ForProvider.LoggingConfiguration ≠
        out.LoggingEnabled := by
      rw [hb, ho]
      simp [GenerateAWSLogging]
    simp [LoggingConfigurationClient.Observe, hne]

/-- C5, witness: a present remote SSE configuration with absent desired state
yields `NeedsDeletion` (via the iff, right to left), and a present remote
logging state with absent desired state yields `NeedsUpdate`. -/
theorem needsDeletionOnlyDeleteCapable_witness :
    ((SSEConfigurationClient.Observe emptyBucket (Except.ok kmsResponse)).map
        (fun r => r.2.1) = some ResourceStatus.NeedsDeletion) ∧
    LoggingConfigurationClient.Observe emptyBucket
        (Except.ok { LoggingEnabled := some oneGrantLE }) =
      (emptyBucket, ResourceStatus.NeedsUpdate, none) :=
  ⟨(needsDeletionOnlyDeleteCapable.1 emptyBucket (Except.ok kmsResponse)).mpr
      ⟨rfl, kmsResponse,
        { ServerSideEncryptionConfiguration := some
            { Rules := [⟨some { KMSMasterKeyID := some "key-arn", SSEAlgorithm := "aws:kms" }⟩] } },
        { Rules := [⟨some { KMSMasterKeyID := some "key-arn", SSEAlgorithm := "aws:kms" }⟩] },
        rfl, rfl, rfl⟩,
    needsDeletionOnlyDeleteCapable.2.2 emptyBucket
      { LoggingEnabled := some oneGrantLE } oneGrantLE rfl rfl⟩

/-- The logging configuration of C6's failing input: TargetBucket set,
TargetGrants nil. -/
def nilGrantsConfig : LoggingConfiguration :=
  { TargetBucket := some "logs", TargetPrefix := "", TargetGrants := none }

/-- A bucket carrying `nilGrantsConfig` as logging desired state. -/
def nilGrantsLogsBucket : Bucket :=
  { ExternalName := "test-bucket",
    Spec := { ForProvider :=
      { LoggingConfiguration := some nilGrantsConfig,
        ServerSideEncryptionConfiguration := none } } }

/-- C6, failing input: with nil desired `TargetGrants`, `CreateOrUpdate`
succeeds and stores the put request's shape (its `TargetGrants` is a non-nil
empty slice), but the subsequent `Observe` — which compares against
`GenerateAWSLogging`'s rendering, whose `TargetGrants` stays nil — returns
`NeedsUpdate`, not `Updated` as the claim (and the spec's idempotence
property) requires. -/
theorem loggingCreateThenObserveNotUpdated :
    LoggingConfigurationClient.CreateOrUpdate nilGrantsLogsBucket none =
      (some (GeneratePutBucketLoggingInput "test-bucket" nilGrantsConfig), none) ∧
    LoggingConfigurationClient.Observe nilGrantsLogsBucket
        (Except.ok { LoggingEnabled :=
          putLoggingEnabled (GeneratePutBucketLoggingInput "test-bucket" nilGrantsConfig) }) =
      (nilGrantsLogsBucket, ResourceStatus.NeedsUpdate, none) := by
  constructor
  · rfl
  · rfl

/-- Mapping a desired SSE rule list into the remote request shape and back is
the identity (the loop bodies of `GeneratePutBucketEncryptionInput` and
`GenerateLocalBucketEncryption` are mutually inverse). -/
lemma sseRulesRoundTrip (l : List ServerSideEncryptionRule) :
    collectLocalRules (l.map fun rule =>
        ({ ApplyServerSideEncryptionByDefault := some
            { KMSMasterKeyID := rule.ApplyServerSideEncryptionByDefault.KMSMasterKeyID,
              SSEAlgorithm := rule.ApplyServerSideEncryptionByDefault.SSEAlgorithm } } :
          AwsServerSideEncryptionRule)) =
      some l := by
  induction l with
  | nil => rfl
  | cons r t ih => simp [collectLocalRules, ih]

/-- C7: projector round trip for the SSE facet — reading back the
configuration embedded in the put request built from a desired configuration
`d` restores exactly `d.Rules`, same length, order and fields. -/
theorem ssePutRoundTrip (name : String) (d : ServerSideEncryptionConfiguration) :
    ((GeneratePutBucketEncryptionInput name d).ServerSideEncryptionConfiguration).map
        GenerateLocalBucketEncryption = some (some d.Rules) := by
  unfold GeneratePutBucketEncryptionInput GenerateLocalBucketEncryption
  simp only [Option.map_some']
  rw [sseRulesRoundTrip d.Rules]

/-- C8: `Observe` of either facet leaves the bucket — its whole desired
state included — unchanged: the bucket in the result equals the input
bucket. -/
theorem observeLeavesBucketUnchanged :
    (∀ (b : Bucket) (send : Except S3Error GetBucketLoggingOutput),
        (LoggingConfigurationClient.Observe b send).1 = b) ∧
    (∀ (b : Bucket) (send : Except S3Error GetBucketEncryptionResponse)
        (r : Bucket × ResourceStatus × Option WrappedError),
        SSEConfigurationClient.Observe b send = some r → r.1 = b) := by
  constructor
  · intro b send
    cases send with
    | error e => rfl
    | ok external =>
        by_cases h : GenerateAWSLogging b.Spec.ForProvider.LoggingConfiguration ≠
            external.LoggingEnabled
        · simp [LoggingConfigurationClient.Observe, h]
        · simp [LoggingConfigurationClient.Observe, h]
  · intro b send r h
    obtain ⟨nm, ⟨⟨lc, sc⟩⟩⟩ := b
    cases send with
    | error e =>
        cases hq : (SSEConfigurationNotFound e && Option.isNone sc) <;>
          simp only [SSEConfigurationClient.Observe, hq, Bool.false_eq_true,
            if_false, if_true, Option.some.injEq] at h <;>
          · subst h
            rfl
    | ok external =>
        obtain ⟨o⟩ := external
        cases o with
        | none => exact Option.noConfusion h
        | some out =>
            obtain ⟨s⟩ := out
            cases s with
            | none =>
                cases sc with
                | none =>
                    simp only [SSEConfigurationClient.Observe, Option.some.injEq] at h
                    subst h
                    rfl
                | some cfg =>
                    simp only [SSEConfigurationClient.Observe, Option.some.injEq] at h
                    subst h
                    rfl
            | some ext =>
                cases sc with
                | none =>
                    simp only [SSEConfigurationClient.Observe, Option.some.injEq] at h
                    subst h
                    rfl
                | some cfg =>
                    by_cases hlen : ext.Rules.length ≠ cfg.Rules.length
                    · simp only [SSEConfigurationClient.Observe, if_pos hlen,
                        Option.some.injEq] at h
                      subst h
                      rfl
                    · simp only [SSEConfigurationClient.Observe, if_neg hlen] at h
                      cases hcmp : sseCompareRules ext.Rules cfg.Rules with
                      | none => rw [hcmp] at h; exact Option.noConfusion h
                      | some drift =>
                          rw [hcmp] at h
                          cases drift <;>
                            · simp only [Option.some.injEq] at h
                              subst h
                              rfl

/-- C8, witness: the SSE part applied at a concrete input. -/
theorem observeLeavesBucketUnchanged_witness :
    (LoggingConfigurationClient.Observe emptyBucket
        (Except.ok { LoggingEnabled := none })).1 = emptyBucket ∧
    (emptyBucket, ResourceStatus.NeedsDeletion,
        (none : Option WrappedError)).1 = emptyBucket :=
  ⟨observeLeavesBucketUnchanged.1 emptyBucket (Except.ok { LoggingEnabled := none }),
    observeLeavesBucketUnchanged.2 emptyBucket (Except.ok kmsResponse)
      (emptyBucket, ResourceStatus.NeedsDeletion, none) rfl⟩

/-- When every remote rule's by-default pointer is non-nil, the copy loop of
`GenerateLocalBucketEncryption` completes without panic. -/
lemma collectLocalRules_isSome (l : List AwsServerSideEncryptionRule)
    (h : ∀ r ∈ l, r.ApplyServerSideEncryptionByDefault.isSome = true) :
    (collectLocalRules l).isSome = true := by
  induction l with
  | nil => rfl
  | cons r t ih =>
      obtain ⟨d, hd⟩ := Option.isSome_iff_exists.mp (h r (by simp))
      obtain ⟨rs, hrs⟩ := Option.isSome_iff_exists.mp
        (ih (fun x hx => h x (by simp [hx])))
      simp [collectLocalRules, hd, hrs]

/-- When the remote and desired rule lists have equal length and every remote
rule's by-default pointer is non-nil, the element-wise loop of the SSE
`Observe` completes without panic. -/
lemma sseCompareRules_isSome (rs : List ServerSideEncryptionRule)
    (os : List AwsServerSideEncryptionRule) (hlen : os.length = rs.length)
    (hall : ∀ o ∈ os, o.ApplyServerSideEncryptionByDefault.isSome = true) :
    (sseCompareRules os rs).isSome = true := by
  induction rs generalizing os with
  | nil => simp [sseCompareRules]
  | cons r t ih =>
      cases os with
      | nil => simp at hlen
      | cons o os' =>
          obtain ⟨d, hd⟩ := Option.isSome_iff_exists.mp (hall o (by simp))
          simp only [sseCompareRules, hd]
          split
          · rfl
          · split
            · rfl
            · exact ih os' (by simpa using hlen) (fun x hx => hall x (by simp [hx]))

/-- A successful remote read whose single rule has a nil
`ApplyServerSideEncryptionByDefault` pointer. -/
def nilRuleResponse : GetBucketEncryptionResponse :=
  { GetBucketEncryptionOutput := some
      { ServerSideEncryptionConfiguration := some { Rules := [⟨none⟩] } } }

/-- C9: the SSE read-back and the SSE `Observe` are total exactly under the
precondition that every remote rule carries a non-nil
`ApplyServerSideEncryptionByDefault` (the desired-side block is a value field
and can never be nil): under the precondition neither function panics, and a
single nil remote pointer makes both hit the panic case. -/
theorem sseNilRuleDereference :
    (∀ (cfg : AwsServerSideEncryptionConfiguration),
        (∀ r ∈ cfg.Rules, r.ApplyServerSideEncryptionByDefault.isSome = true) →
        (GenerateLocalBucketEncryption cfg).isSome = true) ∧
    (∀ (b : Bucket) (resp : GetBucketEncryptionResponse)
        (out : GetBucketEncryptionOutput),
        resp.GetBucketEncryptionOutput = some out →
        (∀ r ∈ ((out.ServerSideEncryptionConfiguration).getD { Rules := [] }).Rules,
            r.ApplyServerSideEncryptionByDefault.isSome = true) →
        (SSEConfigurationClient.Observe b (Except.ok resp)).isSome = true) ∧
    (GenerateLocalBucketEncryption { Rules := [⟨none⟩] } = none ∧
      SSEConfigurationClient.Observe aesBucket (Except.ok nilRuleResponse) = none) := by
  refine ⟨?_, ?_, rfl, rfl⟩
  · intro cfg hall
    exact collectLocalRules_isSome cfg.Rules hall
  · intro b resp out hresp hall
    obtain ⟨o⟩ := resp
    obtain ⟨nm, ⟨⟨lc, sc⟩⟩⟩ := b
    have ho : o = some out := hresp
    subst ho
    obtain ⟨s⟩ := out
    cases s with
    | none =>
        cases sc with
        | none => rfl
        | some cfg => rfl
    | some ext =>
        cases sc with
        | none => rfl
        | some cfg =>
            by_cases hlen : ext.Rules.length ≠ cfg.Rules.length
            · simp [SSEConfigurationClient.Observe, hlen]
            · simp only [SSEConfigurationClient.Observe, if_neg hlen]
              have hcmp := sseCompareRules_isSome cfg.Rules ext.Rules
                (not_ne_iff.mp hlen) (by simpa using hall)
              obtain ⟨v, hv⟩ := Option.isSome_iff_exists.mp hcmp
              rw [hv]
              cases v <;> rfl

/-- C9, witness: the totality parts applied at a concrete non-nil input. -/
theorem sseNilRuleDereference_witness :
    (GenerateLocalBucketEncryption
        { Rules := [⟨some { KMSMasterKeyID := none, SSEAlgorithm := "AES256" }⟩] }).isSome =
      true ∧
    (SSEConfigurationClient.Observe aesBucket (Except.ok kmsResponse)).isSome = true :=
  ⟨sseNilRuleDereference.1
      { Rules := [⟨some { KMSMasterKeyID := none, SSEAlgorithm := "AES256" }⟩] }
      (by decide),
    sseNilRuleDereference.2.1 aesBucket kmsResponse
      { ServerSideEncryptionConfiguration := some
          { Rules := [⟨some { KMSMasterKeyID := some "key-arn", SSEAlgorithm := "aws:kms" }⟩] } }
      rfl (by decide)⟩

/-- C10: with non-nil desired `TargetGrants` the two remote-shape renderings
of the logging desired state agree exactly; with nil `TargetGrants`,
`GenerateAWSLogging` renders a nil grant list while
`GeneratePutBucketLoggingInput` renders a non-nil empty one, and the
renderings agree on `TargetBucket` and `TargetPrefix`. -/
theorem loggingRenderingsAgreement (name : String) (cfg : LoggingConfiguration) :
    (cfg.TargetGrants ≠ none →
        putLoggingEnabled (GeneratePutBucketLoggingInput name cfg) =
          GenerateAWSLogging (some cfg)) ∧
    (cfg.TargetGrants = none →
        putLoggingEnabled (GeneratePutBucketLoggingInput name cfg) =
          some { TargetBucket := cfg.TargetBucket, TargetGrants := some [],
                 TargetPrefix := some cfg.TargetPrefix } ∧
        GenerateAWSLogging (some cfg) =
          some { TargetBucket := cfg.TargetBucket, TargetGrants := none,
                 TargetPrefix := some cfg.TargetPrefix }) := by
  constructor
  · intro h
    obtain ⟨gs, hg⟩ := Option.ne_none_iff_exists'.mp h
    simp [putLoggingEnabled, GeneratePutBucketLoggingInput, GenerateAWSLogging, hg]
  · intro h
    simp [putLoggingEnabled, GeneratePutBucketLoggingInput, GenerateAWSLogging, h]

/-- A logging desired state with an empty but non-nil grants list. -/
def emptyGrantsConfig : LoggingConfiguration :=
  { TargetBucket := none, TargetPrefix := "", TargetGrants := some [] }

/-- C10, witness: both halves applied at concrete inputs. -/
theorem loggingRenderingsAgreement_witness :
    putLoggingEnabled (GeneratePutBucketLoggingInput "test-bucket" emptyGrantsConfig) =
      GenerateAWSLogging (some emptyGrantsConfig) ∧
    (putLoggingEnabled (GeneratePutBucketLoggingInput "test-bucket" nilGrantsConfig) =
        some { TargetBucket := some "logs", TargetGrants := some [],
               TargetPrefix := some "" } ∧
      GenerateAWSLogging (some nilGrantsConfig) =
        some { TargetBucket := some "logs", TargetGrants := none,
               TargetPrefix := some "" }) :=
  ⟨(loggingRenderingsAgreement "test-bucket" emptyGrantsConfig).1 (by decide),
    (loggingRenderingsAgreement "test-bucket" nilGrantsConfig).2 rfl⟩
